import Mathlib

/-
Verification of the variant normalization and matching engine of
`analyze.py` (the match-gennotes repository).

The embedding below follows the source file closely:
  * `CHROM_INDEX` / `chromIndex` model the static chromosome-name-to-code
    table imported from the external `vcf2clinvar.common` module;
  * `ClinVarRow`, `rowMatches`, `clinvarLookup` model the SQLite table
    `clinvar` and the `SELECT ... WHERE (chrom=? AND pos=? AND alt LIKE ?)
    OR (id=?)` query issued by `map_23andme_clinvar`;
  * `parse_clinvar_data` models the index-build loop with its per-record
    `INSERT` guarded by the unique index on `id`;
  * `processResult` / `processVar` / `mapUserVariants` /
    `map_23andme_clinvar` model the matcher loops, with the three external
    calls (the gennotes HTTP request, `myvariant.format_hgvs`, and
    `mv.getvariant`) supplied as oracle functions returning `Except`;
  * `mainDriver` models the control flow of the `__main__` block.
Fallible Python operations are modelled with `Except PyError`.
-/

/-- Errors raised by the modelled Python operations. -/
inductive PyError where
  /-- `KeyError` from subscripting `CHROM_INDEX` with an unknown name. -/
  | keyError (key : String)
  /-- `ValueError` from `int()` on an unparseable string. -/
  | valueError (s : String)
  /-- `sqlite3.IntegrityError` from violating the unique index on `id`
  (the spec's `DuplicateIdentifierError`). -/
  | integrityError
  /-- a failure of an HTTP request or of decoding its JSON body. -/
  | requestError (msg : String)
  /-- a failure of `myvariant.format_hgvs` (e.g. unsupported allele shape). -/
  | hgvsError (msg : String)
deriving DecidableEq, Repr

deriving instance DecidableEq for Except

/-- SQLite `LIKE` matching on character lists, with explicit fuel.
In the pattern, a percent sign matches any sequence of characters and an
underscore matches any single character; every other character matches
itself up to ASCII case folding (SQLite's default `LIKE` is
case-insensitive for ASCII only, which is what `Char.toLower` performs).
Every recursive call decreases `pattern.length + s.length`, so the fuel
supplied by `sqlLike` below is never exhausted. -/
def likeMatchF : Nat → List Char → List Char → Bool
  | 0, _, _ => false
  | _ + 1, [], s => s.isEmpty
  | fuel + 1, '%' :: ps, [] => likeMatchF fuel ps []
  | fuel + 1, '%' :: ps, c :: cs =>
      likeMatchF fuel ps (c :: cs) || likeMatchF fuel ('%' :: ps) cs
  | _ + 1, '_' :: _, [] => false
  | fuel + 1, '_' :: ps, _ :: cs => likeMatchF fuel ps cs
  | _ + 1, _ :: _, [] => false
  | fuel + 1, p :: ps, c :: cs => (p.toLower == c.toLower) && likeMatchF fuel ps cs

/-- `alt LIKE pattern` as evaluated by SQLite for the query of
`map_23andme_clinvar`: the first argument is the pattern (the individual's
raw alternate allele string), the second the stored column value. -/
def sqlLike (pattern s : String) : Bool :=
  likeMatchF (pattern.length + s.length + 1) pattern.data s.data

/-- Model of Python `int(str)`: surrounding whitespace is stripped, then an
optional sign followed by one or more decimal digits is accepted; anything
else raises `ValueError`. (Underscore digit separators and non-ASCII
digits, which CPython also accepts, are not modelled; they do not occur in
VCF position columns.) -/
def pyInt (s : String) : Except PyError Int :=
  let t := ((s.data.dropWhile Char.isWhitespace).reverse.dropWhile
            Char.isWhitespace).reverse
  let neg := t.head? == some '-'
  let core := match t with
    | '-' :: rest => rest
    | '+' :: rest => rest
    | _ => t
  if !core.isEmpty && core.all Char.isDigit then
    let n : Nat := core.foldl (fun acc c => acc * 10 + (c.toNat - 48)) 0
    .ok (if neg then -(n : Int) else (n : Int))
  else .error (.valueError s)

/-- Modelled from the spec: the static chromosome-name-to-code table
`CHROM_INDEX` of the external `vcf2clinvar.common` module (a dependency,
not part of this repository's source), described as "a static chromosome
name to code table covering 1-22, X, Y, MT, and unplaced contigs".
Unplaced-contig entries are not enumerated here; every claim that touches
the table only depends on membership or absence of a name. -/
def CHROM_INDEX : List (String × Nat) :=
  [("1", 1), ("2", 2), ("3", 3), ("4", 4), ("5", 5), ("6", 6), ("7", 7),
   ("8", 8), ("9", 9), ("10", 10), ("11", 11), ("12", 12), ("13", 13),
   ("14", 14), ("15", 15), ("16", 16), ("17", 17), ("18", 18), ("19", 19),
   ("20", 20), ("21", 21), ("22", 22), ("X", 23), ("Y", 24), ("MT", 25),
   ("M", 25)]

/-- `CHROM_INDEX[name]` as a partial function; `none` means the subscript
raises `KeyError`. -/
def chromIndex (c : String) : Option Nat :=
  CHROM_INDEX.lookup c

/-- Python `repr` of a string, for strings containing no quote characters
(allele strings are plain nucleotide text). -/
def pyRepr (s : String) : String :=
  "'" ++ s ++ "'"

/-- Python `str` of a list of strings, as produced by
`str(clinvar_vcf_line.alt_alleles)` at index-build time: the elements'
reprs joined by comma-space inside square brackets. The alternate alleles
themselves are modelled from the spec as a list of allele strings (the
`vcf2clinvar` parser that produces them is an external dependency). -/
def pyStrList : List String → String
  | [] => "[]"
  | x :: xs =>
      "[" ++ pyRepr x ++ xs.foldl (fun acc y => acc ++ ", " ++ pyRepr y) "" ++ "]"

/-- One row of the SQLite table `clinvar`
`(chrom int, pos int, id text, ref text, alt text, full_data text)`.
`id` is nullable: the insert stores `None` for a placeholder identifier. -/
structure ClinVarRow where
  chrom : Nat
  pos : Int
  id : Option String
  ref : String
  alt : String
  full_data : String
deriving DecidableEq, Repr

/-- The `WHERE` clause `(chrom=? AND pos=? AND alt LIKE ?) OR (id=?)` of
the lookup query, evaluated on one stored row. A stored SQL `NULL`
identifier never satisfies `id=?` (SQL three-valued logic), which the
`Option` equality reproduces: `none == some i` is false. -/
def rowMatches (cCode : Nat) (p : Int) (a i : String) (r : ClinVarRow) : Bool :=
  (r.chrom == cCode && r.pos == p && sqlLike a r.alt) || r.id == some i

/-- `SELECT * FROM clinvar WHERE (chrom=? AND pos=? AND alt LIKE ?) OR
(id=?)` over the stored rows, in storage order. -/
def clinvarLookup (db : List ClinVarRow) (cCode : Nat) (p : Int) (a i : String) :
    List ClinVarRow :=
  db.filter (rowMatches cCode p a i)

/-- Modelled from the spec: the fields of a parsed reference-dump line
(`ClinVarVCFLine` of the external `vcf2clinvar` package) that
`parse_clinvar_data` reads. `as_dict` stands for the string
`json.dumps(clinvar_vcf_line.as_dict())`, kept opaque. -/
structure ClinVarVCFLine where
  chrom : String
  start : Int
  dbsnp_id : String
  ref_allele : String
  alt_alleles : List String
  as_dict : String
deriving DecidableEq, Repr

/-- The tuple bound by the `INSERT INTO clinvar VALUES (?, ?, ?, ?, ?, ?)`
statement: chromosome code via `CHROM_INDEX` (raising `KeyError` on an
unknown name), position, the identifier with the placeholder token "."
translated to `None`, the reference allele, the list-serialized alternate
alleles, and the serialized annotation document. -/
def clinvarRowOfLine (l : ClinVarVCFLine) : Except PyError ClinVarRow :=
  match chromIndex l.chrom with
  | none => .error (.keyError l.chrom)
  | some code =>
      .ok { chrom := code,
            pos := l.start,
            id := if l.dbsnp_id = "." then none else some l.dbsnp_id,
            ref := l.ref_allele,
            alt := pyStrList l.alt_alleles,
            full_data := l.as_dict }

/-- Executing one `INSERT` under the unique index `id_match` on `id`:
inserting a non-null identifier that is already stored raises
`IntegrityError` and leaves the table unchanged; a null identifier never
collides (SQLite unique indexes treat NULLs as pairwise distinct). -/
def insertClinvar (db : List ClinVarRow) (r : ClinVarRow) :
    Except PyError (List ClinVarRow) :=
  match r.id with
  | some s =>
      if db.any (fun q => q.id == some s) then .error .integrityError
      else .ok (db ++ [r])
  | none => .ok (db ++ [r])

/-- The insert loop of `parse_clinvar_data`: each record is inserted and
committed individually; a raised error aborts the loop, and the rows
already committed remain stored (there is no transaction rollback).
The result is the final table together with the raised error, if any. -/
def parse_clinvar_data :
    List ClinVarVCFLine → List ClinVarRow → List ClinVarRow × Option PyError
  | [], db => (db, none)
  | l :: ls, db =>
      match clinvarRowOfLine l with
      | .error e => (db, some e)
      | .ok r =>
          match insertClinvar db r with
          | .error e => (db, some e)
          | .ok db2 => parse_clinvar_data ls db2

/-- The fields of one parsed individual variant (one line of a user's VCF
file) that the matcher reads; `parse_user_vcf_data` also stores the
remaining five VCF columns, which the matcher never consults. -/
structure UserVariant where
  chrom : String
  pos : String
  id : String
  ref_allele : String
  alt_allele : String
deriving DecidableEq, Repr

/-- The five enrichment keys the matcher writes into the variant's dict. -/
structure Slots where
  clinvar_data : Option String
  gennotes_id : Option String
  gennotes_data : Option String
  hgvs_id : Option String
  mv_data : Option String
deriving DecidableEq, Repr

/-- The dict state before the matcher writes any enrichment key. -/
def emptySlots : Slots :=
  { clinvar_data := none, gennotes_id := none, gennotes_data := none,
    hgvs_id := none, mv_data := none }

/-- One entry of the serialized `mapped` output list: the variant's own
columns together with the enrichment slot values it holds at
serialization time. -/
structure EnrichedVariant where
  var : UserVariant
  slots : Slots
deriving DecidableEq, Repr

/-- The three external calls made per match, as black-box oracles:
the gennotes HTTP request (including JSON decoding of its response),
`myvariant.format_hgvs`, the total `urllib.parse.unquote`, and the cached
`mv.getvariant` (whose `Option` result models the service returning no
document for an unknown variant). -/
structure Oracles where
  gennotes : String → Except PyError String
  format_hgvs : String → String → String → String → Except PyError String
  unquote : String → String
  getvariant : String → Except PyError (Option String)

/-- `_gennotes_id`: the coordinate key template `b37-{chrom}-{pos}-{ref}-{alt}`. -/
def _gennotes_id (chrom pos ref var : String) : String :=
  "b37-" ++ chrom ++ "-" ++ pos ++ "-" ++ ref ++ "-" ++ var

/-- `_hgvs_id`: percent-decodes the result of `myvariant.format_hgvs`;
any error raised by the conversion propagates. -/
def _hgvs_id (os : Oracles) (chrom pos ref var : String) :
    Except PyError String :=
  (os.format_hgvs chrom pos ref var).map os.unquote

/-- The body of the inner `for result in c.fetchall()` loop, acting on the
variant's dict: every iteration first sets `clinvar_data` to the current
result's last column and resets the other four keys to `None`; when the
alternate allele is not the placeholder ".", it then performs the gennotes
request (uncaught), the HGVS conversion (uncaught), and the myvariant
lookup, whose failure alone is caught, leaving `mv_data` at `None`.
The incoming slot state is overwritten wholesale, reproducing the
re-assignment of all five keys at the top of each iteration. -/
def processResult (os : Oracles) (v : UserVariant) (_s : Slots) (r : ClinVarRow) :
    Except PyError Slots :=
  let s0 : Slots :=
    { clinvar_data := some r.full_data, gennotes_id := none,
      gennotes_data := none, hgvs_id := none, mv_data := none }
  if v.alt_allele = "." then .ok s0
  else
    let gid := _gennotes_id v.chrom v.pos v.ref_allele v.alt_allele
    match os.gennotes gid with
    | .error e => .error e
    | .ok gd =>
        match _hgvs_id os v.chrom v.pos v.ref_allele v.alt_allele with
        | .error e => .error e
        | .ok hid =>
            let s1 : Slots :=
              { s0 with gennotes_id := some gid, gennotes_data := some gd,
                        hgvs_id := some hid }
            match os.getvariant hid with
            | .ok o => .ok { s1 with mv_data := o }
            | .error _ => .ok s1

/-- Running the inner result loop over the fetched rows in order,
threading the single mutable dict's slot state. -/
def enrichLoop (os : Oracles) (v : UserVariant) :
    List ClinVarRow → Slots → Except PyError Slots
  | [], s => .ok s
  | r :: rs, s =>
      match processResult os v s r with
      | .error e => .error e
      | .ok s2 => enrichLoop os v rs s2

/-- Processing one individual variant: the query parameters
`CHROM_INDEX[str(chrom)]` and `int(pos)` are evaluated first (either may
raise, before the index is queried), the lookup is issued, and the result
loop runs. Since `mapped.append(var)` appends a reference to the one
mutable dict once per result, the variant's contribution to the output is
its final slot state repeated once per matching row (and nothing when no
row matched). -/
def processVar (os : Oracles) (db : List ClinVarRow) (v : UserVariant) :
    Except PyError (List EnrichedVariant) :=
  match chromIndex v.chrom with
  | none => .error (.keyError v.chrom)
  | some code =>
      match pyInt v.pos with
      | .error e => .error e
      | .ok p =>
          let results := clinvarLookup db code p v.alt_allele v.id
          match enrichLoop os v results emptySlots with
          | .error e => .error e
          | .ok final =>
              .ok (List.replicate results.length { var := v, slots := final })

/-- Processing one user's parsed variants in input order; an uncaught
error raised for one variant aborts the remaining variants. -/
def mapUserVariants (os : Oracles) (db : List ClinVarRow) :
    List UserVariant → Except PyError (List EnrichedVariant)
  | [] => .ok []
  | v :: vs =>
      match processVar os db v with
      | .error e => .error e
      | .ok l =>
          match mapUserVariants os db vs with
          | .error e => .error e
          | .ok rest => .ok (l ++ rest)

/-- `map_23andme_clinvar` over the list of users, one output list per
user; an uncaught error raised for one user aborts the remaining users. -/
def map_23andme_clinvar (os : Oracles) (db : List ClinVarRow) :
    List (List UserVariant) → Except PyError (List (List EnrichedVariant))
  | [] => .ok []
  | u :: us =>
      match mapUserVariants os db u with
      | .error e => .error e
      | .ok m =>
          match map_23andme_clinvar os db us with
          | .error e => .error e
          | .ok rest => .ok (m :: rest)

/-- The on-disk state the `__main__` block consults: whether the file
`./clinvar.db` exists. -/
structure FS where
  clinvarDb : Bool
deriving DecidableEq, Repr

/-- `sqlite3.connect('./clinvar.db')`: SQLite opens the database with the
create flag, so the file comes into existence immediately when absent. -/
def sqlite3_connect (_fs : FS) : FS :=
  { clinvarDb := true }

/-- `Path('./clinvar.db').is_file()`. -/
def is_file (fs : FS) : Bool :=
  fs.clinvarDb

/-- Which of the two guarded steps the driver ran. -/
structure DriverTrace where
  schemaCreated : Bool
  buildInvoked : Bool
deriving DecidableEq, Repr

/-- The `__main__` control flow around the index artifact: connect (which
creates the file when absent), create the schema only if the file does not
exist, download the user data (which does not touch `./clinvar.db`), and
invoke the index build only if the file does not exist. -/
def mainDriver (fs0 : FS) : DriverTrace × FS :=
  let fs1 := sqlite3_connect fs0
  let sc := !(is_file fs1)
  let bi := !(is_file fs1)
  ({ schemaCreated := sc, buildInvoked := bi }, fs1)

/-
Concrete fixtures used by the scenario theorems, the witnesses and the
counterexamples below. `rowA` is exactly the row that building the index
from `lineA` stores.
-/

/-- A reference-dump line `1 1000 rs1 A G` with annotation document "d1". -/
def lineA : ClinVarVCFLine :=
  { chrom := "1", start := 1000, dbsnp_id := "rs1", ref_allele := "A",
    alt_alleles := ["G"], as_dict := "d1" }

/-- A reference-dump line on another coordinate reusing identifier rs1. -/
def lineB : ClinVarVCFLine :=
  { chrom := "2", start := 2000, dbsnp_id := "rs1", ref_allele := "C",
    alt_alleles := ["T"], as_dict := "d2" }

/-- The stored row produced from `lineA`. -/
def rowA : ClinVarRow :=
  { chrom := 1, pos := 1000, id := some "rs1", ref := "A", alt := "['G']",
    full_data := "d1" }

/-- The row that inserting `lineB` would store. -/
def rowB : ClinVarRow :=
  { chrom := 2, pos := 2000, id := some "rs1", ref := "C", alt := "['T']",
    full_data := "d2" }

/-- An individual variant `1 1000 rs1 A G`. -/
def v1 : UserVariant :=
  { chrom := "1", pos := "1000", id := "rs1", ref_allele := "A",
    alt_allele := "G" }

/-- The same individual variant with the placeholder alternate allele. -/
def vDot : UserVariant :=
  { chrom := "1", pos := "1000", id := "rs1", ref_allele := "A",
    alt_allele := "." }

/-- Oracles for runs in which every external call succeeds. -/
def osOk : Oracles :=
  { gennotes := fun _ => .ok "gnote", format_hgvs := fun _ _ _ _ => .ok "h",
    unquote := fun s => s, getvariant := fun _ => .ok (some "mv") }

/-- Oracles whose gennotes HTTP request fails. -/
def osGenFail : Oracles :=
  { gennotes := fun _ => .error (.requestError "gennotes down"),
    format_hgvs := fun _ _ _ _ => .ok "h", unquote := fun s => s,
    getvariant := fun _ => .ok (some "mv") }

/-- Oracles whose HGVS conversion fails. -/
def osHgvsFail : Oracles :=
  { gennotes := fun _ => .ok "gnote",
    format_hgvs := fun _ _ _ _ => .error (.hgvsError "unsupported allele"),
    unquote := fun s => s, getvariant := fun _ => .ok (some "mv") }

/-- Oracles whose myvariant lookup fails. -/
def osMvFail : Oracles :=
  { gennotes := fun _ => .ok "gnote", format_hgvs := fun _ _ _ _ => .ok "h",
    unquote := fun s => s, getvariant := fun _ => .error (.requestError "mv down") }

/-
Helper lemmas shared by the claim theorems: unfolding equations for the
loop functions, and two small list facts.
-/

/-- Unfolding `parse_clinvar_data` when the chromosome lookup raises. -/
theorem parse_cons_lineError {l : ClinVarVCFLine} {ls : List ClinVarVCFLine}
    {db : List ClinVarRow} {e : PyError} (h : clinvarRowOfLine l = .error e) :
    parse_clinvar_data (l :: ls) db = (db, some e) := by
  rw [parse_clinvar_data, h]

/-- Unfolding `parse_clinvar_data` when the insert raises. -/
theorem parse_cons_insertError {l : ClinVarVCFLine} {ls : List ClinVarVCFLine}
    {db : List ClinVarRow} {r : ClinVarRow} {e : PyError}
    (h : clinvarRowOfLine l = .ok r) (hi : insertClinvar db r = .error e) :
    parse_clinvar_data (l :: ls) db = (db, some e) := by
  rw [parse_clinvar_data, h]
  show (match insertClinvar db r with
        | .error e => (db, some e)
        | .ok db2 => parse_clinvar_data ls db2) = (db, some e)
  rw [hi]

/-- Unfolding `parse_clinvar_data` when the insert succeeds. -/
theorem parse_cons_ok {l : ClinVarVCFLine} {ls : List ClinVarVCFLine}
    {db db2 : List ClinVarRow} {r : ClinVarRow}
    (h : clinvarRowOfLine l = .ok r) (hi : insertClinvar db r = .ok db2) :
    parse_clinvar_data (l :: ls) db = parse_clinvar_data ls db2 := by
  rw [parse_clinvar_data, h]
  show (match insertClinvar db r with
        | .error e => (db, some e)
        | .ok db2 => parse_clinvar_data ls db2) = parse_clinvar_data ls db2
  rw [hi]

/-- Splitting the index-build loop: once a prefix of the dump has been
consumed without error, running the whole dump is running the remainder
from the table the prefix produced. -/
theorem parse_clinvar_append (ls1 : List ClinVarVCFLine) :
    ∀ (db t : List ClinVarRow), parse_clinvar_data ls1 db = (t, none) →
    ∀ ls2, parse_clinvar_data (ls1 ++ ls2) db = parse_clinvar_data ls2 t := by
  induction ls1 with
  | nil =>
      intro db t h ls2
      simp only [parse_clinvar_data, Prod.mk.injEq] at h
      rw [List.nil_append, h.1]
  | cons l ls ih =>
      intro db t h ls2
      rw [List.cons_append]
      cases hr : clinvarRowOfLine l with
      | error e =>
          rw [parse_cons_lineError hr] at h
          simp at h
      | ok r =>
          cases hi : insertClinvar db r with
          | error e =>
              rw [parse_cons_insertError hr hi] at h
              simp at h
          | ok db2 =>
              rw [parse_cons_ok hr hi] at h
              rw [parse_cons_ok hr hi]
              exact ih db2 t h ls2

/-- The inner result loop when every iteration succeeds with a state that
depends only on the current row: the final slot state is the one produced
for the last fetched row (or the initial state when nothing was fetched). -/
theorem enrichLoop_const (os : Oracles) (v : UserVariant) (g : ClinVarRow → Slots)
    (hf : ∀ s r, processResult os v s r = .ok (g r)) :
    ∀ (l : List ClinVarRow) (init : Slots),
      enrichLoop os v l init = .ok ((l.map g).getLastD init) := by
  intro l
  induction l with
  | nil => intro init; rfl
  | cons r rs ih =>
      intro init
      rw [enrichLoop, hf init r, List.map_cons, List.getLastD_cons]
      exact ih (g r)

/-- A property holding of the default and of every list element holds of
`getLastD`. -/
theorem getLastD_of_all {α : Type} (P : α → Prop) :
    ∀ (l : List α) (d : α), P d → (∀ a ∈ l, P a) → P (l.getLastD d) := by
  intro l
  induction l with
  | nil => intro d hd _; exact hd
  | cons a l ih =>
      intro d _ hl
      rw [List.getLastD_cons]
      exact ih a (hl a (List.mem_cons_self a l))
        fun b hb => hl b (List.mem_cons_of_mem a hb)

theorem processResult_dot {os : Oracles} {v : UserVariant} {s : Slots}
    {r : ClinVarRow} (h : v.alt_allele = ".") :
    processResult os v s r =
      .ok { clinvar_data := some r.full_data, gennotes_id := none,
            gennotes_data := none, hgvs_id := none, mv_data := none } := by
  rw [processResult, if_pos h]

theorem processResult_genFail {os : Oracles} {v : UserVariant} {s : Slots}
    {r : ClinVarRow} {e : PyError} (hne : v.alt_allele ≠ ".")
    (hgen : os.gennotes (_gennotes_id v.chrom v.pos v.ref_allele v.alt_allele)
            = .error e) :
    processResult os v s r = .error e := by
  simp only [processResult, if_neg hne, hgen]

theorem processResult_hgvsFail {os : Oracles} {v : UserVariant} {s : Slots}
    {r : ClinVarRow} {gd : String} {e : PyError} (hne : v.alt_allele ≠ ".")
    (hgen : os.gennotes (_gennotes_id v.chrom v.pos v.ref_allele v.alt_allele)
            = .ok gd)
    (hh : os.format_hgvs v.chrom v.pos v.ref_allele v.alt_allele = .error e) :
    processResult os v s r = .error e := by
  simp only [processResult, if_neg hne, hgen, _hgvs_id, hh, Except.map]

theorem processResult_mvCaught {os : Oracles} {v : UserVariant} {s : Slots}
    {r : ClinVarRow} {gd hv : String} {e : PyError} (hne : v.alt_allele ≠ ".")
    (hgen : os.gennotes (_gennotes_id v.chrom v.pos v.ref_allele v.alt_allele)
            = .ok gd)
    (hh : os.format_hgvs v.chrom v.pos v.ref_allele v.alt_allele = .ok hv)
    (hmv : os.getvariant (os.unquote hv) = .error e) :
    processResult os v s r =
      .ok { clinvar_data := some r.full_data,
            gennotes_id := some (_gennotes_id v.chrom v.pos v.ref_allele v.alt_allele),
            gennotes_data := some gd, hgvs_id := some (os.unquote hv),
            mv_data := none } := by
  simp only [processResult, if_neg hne, hgen, _hgvs_id, hh, Except.map, hmv]

theorem processResult_allOk {os : Oracles} {v : UserVariant} {s : Slots}
    {r : ClinVarRow} {gd hv : String} {o : Option String} (hne : v.alt_allele ≠ ".")
    (hgen : os.gennotes (_gennotes_id v.chrom v.pos v.ref_allele v.alt_allele)
            = .ok gd)
    (hh : os.format_hgvs v.chrom v.pos v.ref_allele v.alt_allele = .ok hv)
    (hmv : os.getvariant (os.unquote hv) = .ok o) :
    processResult os v s r =
      .ok { clinvar_data := some r.full_data,
            gennotes_id := some (_gennotes_id v.chrom v.pos v.ref_allele v.alt_allele),
            gennotes_data := some gd, hgvs_id := some (os.unquote hv),
            mv_data := o } := by
  simp only [processResult, if_neg hne, hgen, _hgvs_id, hh, Except.map, hmv]

theorem processVar_keyError {os : Oracles} {db : List ClinVarRow}
    {v : UserVariant} (hc : chromIndex v.chrom = none) :
    processVar os db v = .error (.keyError v.chrom) := by
  rw [processVar, hc]

theorem processVar_posError {os : Oracles} {db : List ClinVarRow}
    {v : UserVariant} {code : Nat} {e : PyError}
    (hc : chromIndex v.chrom = some code) (hp : pyInt v.pos = .error e) :
    processVar os db v = .error e := by
  rw [processVar, hc]
  show (match pyInt v.pos with
        | .error e => Except.error e
        | .ok p => _) = Except.error e
  rw [hp]

theorem processVar_loopError {os : Oracles} {db : List ClinVarRow}
    {v : UserVariant} {code : Nat} {p : Int} {e : PyError}
    (hc : chromIndex v.chrom = some code) (hp : pyInt v.pos = .ok p)
    (hl : enrichLoop os v (clinvarLookup db code p v.alt_allele v.id) emptySlots
          = .error e) :
    processVar os db v = .error e := by
  simp only [processVar, hc, hp, hl]

theorem processVar_loopOk {os : Oracles} {db : List ClinVarRow}
    {v : UserVariant} {code : Nat} {p : Int} {final : Slots}
    (hc : chromIndex v.chrom = some code) (hp : pyInt v.pos = .ok p)
    (hl : enrichLoop os v (clinvarLookup db code p v.alt_allele v.id) emptySlots
          = .ok final) :
    processVar os db v =
      .ok (List.replicate (clinvarLookup db code p v.alt_allele v.id).length
             { var := v, slots := final }) := by
  simp only [processVar, hc, hp, hl]

theorem mapUserVariants_cons_error {os : Oracles} {db : List ClinVarRow}
    {v : UserVariant} {vs : List UserVariant} {e : PyError}
    (h : processVar os db v = .error e) :
    mapUserVariants os db (v :: vs) = .error e := by
  rw [mapUserVariants, h]

theorem mapUserVariants_cons_ok {os : Oracles} {db : List ClinVarRow}
    {v : UserVariant} {vs : List UserVariant} {l rest : List EnrichedVariant}
    (h : processVar os db v = .ok l) (hrest : mapUserVariants os db vs = .ok rest) :
    mapUserVariants os db (v :: vs) = .ok (l ++ rest) := by
  rw [mapUserVariants, h]
  show (match mapUserVariants os db vs with
        | .error e => Except.error e
        | .ok rest => Except.ok (l ++ rest)) = Except.ok (l ++ rest)
  rw [hrest]

theorem mapUserVariants_cons_okError {os : Oracles} {db : List ClinVarRow}
    {v : UserVariant} {vs : List UserVariant} {l : List EnrichedVariant} {e : PyError}
    (h : processVar os db v = .ok l) (hrest : mapUserVariants os db vs = .error e) :
    mapUserVariants os db (v :: vs) = .error e := by
  rw [mapUserVariants, h]
  show (match mapUserVariants os db vs with
        | .error e => Except.error e
        | .ok rest => Except.ok (l ++ rest)) = Except.error e
  rw [hrest]

theorem mapUsers_cons_error {os : Oracles} {db : List ClinVarRow}
    {u : List UserVariant} {us : List (List UserVariant)} {e : PyError}
    (h : mapUserVariants os db u = .error e) :
    map_23andme_clinvar os db (u :: us) = .error e := by
  rw [map_23andme_clinvar, h]

/-- A row matching the scenario query only by identifier (wrong coordinate). -/
def rowIdOnly : ClinVarRow :=
  { chrom := 2, pos := 5, id := some "rs7", ref := "A", alt := "['C']",
    full_data := "x" }

/-- A row matching the scenario query only by coordinate and allele
pattern (it has no identifier at all). -/
def rowCoordOnly : ClinVarRow :=
  { chrom := 1, pos := 1000, id := none, ref := "A", alt := "['G']",
    full_data := "y" }

/-- A row matching the scenario query by neither branch. -/
def rowNeither : ClinVarRow :=
  { chrom := 1, pos := 999, id := some "rs8", ref := "A", alt := "['G']",
    full_data := "z" }

/-- C1: each lookup the matcher issues returns exactly the stored rows
satisfying `(chrom = c AND pos = p AND alt LIKE a) OR (id = i)`, where the
stored `alt` column is the list-serialized allele string; concretely, on a
store holding the three scenario rows, the query `(1, 1000, "['G']",
"rs7")` returns the row matching only by identifier and the row matching
only by coordinate plus allele pattern, and not the row matching neither. -/
theorem lookup_or_semantics :
    (∀ (db : List ClinVarRow) (cc : Nat) (pp : Int) (aa ii : String)
       (r : ClinVarRow),
       r ∈ clinvarLookup db cc pp aa ii ↔
         r ∈ db ∧
           ((r.chrom = cc ∧ r.pos = pp ∧ sqlLike aa r.alt = true) ∨
            r.id = some ii))
    ∧ rowIdOnly ∈
        clinvarLookup [rowIdOnly, rowCoordOnly, rowNeither] 1 1000 "['G']" "rs7"
    ∧ rowCoordOnly ∈
        clinvarLookup [rowIdOnly, rowCoordOnly, rowNeither] 1 1000 "['G']" "rs7"
    ∧ rowNeither ∉
        clinvarLookup [rowIdOnly, rowCoordOnly, rowNeither] 1 1000 "['G']" "rs7" := by
  refine ⟨?_, by decide, by decide, by decide⟩
  intro db cc pp aa ii r
  simp [clinvarLookup, List.mem_filter, rowMatches, and_assoc]

/-- C9: the coordinate-key derivation is a pure function of its four
string inputs, follows the fixed template `b37-chrom-pos-ref-alt`, and for
fixed chromosome, position and reference allele is injective in the
alternate allele. -/
theorem gennotes_id_template_injective :
    (∀ c p r a : String, _gennotes_id c p r a = _gennotes_id c p r a)
    ∧ (∀ c p r a : String,
        _gennotes_id c p r a =
          "b37-" ++ c ++ "-" ++ p ++ "-" ++ r ++ "-" ++ a)
    ∧ (∀ c p r a1 a2 : String, a1 ≠ a2 →
        _gennotes_id c p r a1 ≠ _gennotes_id c p r a2) := by
  refine ⟨fun _ _ _ _ => rfl, fun _ _ _ _ => rfl, ?_⟩
  intro c p r a1 a2 hne h
  apply hne
  have hd := congrArg String.data h
  simp only [_gennotes_id, String.data_append] at hd
  have := List.append_cancel_left hd
  cases a1
  cases a2
  exact congrArg String.mk this

/-- Witness for C9 at concrete inputs: the keys for alternate alleles "G"
and "T" at coordinate 1:1000 with reference "A" differ. -/
theorem gennotes_id_template_injective_witness :
    _gennotes_id "1" "1000" "A" "G" ≠ _gennotes_id "1" "1000" "A" "T" :=
  gennotes_id_template_injective.2.2 "1" "1000" "A" "G" "T" (by decide)

/-- C3: the driver connects before checking for the index artifact, and
connecting creates the artifact file; hence on a fresh run (no
`./clinvar.db` on disk) neither the schema creation nor the index build is
invoked, contradicting the claim that a fresh run builds the index; on a
run where the artifact already exists the build is likewise skipped. -/
theorem fresh_run_skips_schema_and_build :
    (mainDriver { clinvarDb := false }).1.schemaCreated = false
    ∧ (mainDriver { clinvarDb := false }).1.buildInvoked = false
    ∧ (mainDriver { clinvarDb := true }).1.buildInvoked = false := by
  decide

/-- C5: once the table holds a row with non-null identifier `s`, consuming
a further record carrying the same identifier raises the duplicate-
identifier error at that insert, aborting the build with the table exactly
as the prior inserts left it (no rollback), and every prior row with an
identifier is still returned by a lookup on that identifier, whatever
coordinate and allele pattern the lookup carries. -/
theorem duplicate_id_aborts_no_rollback
    (ls1 : List ClinVarVCFLine) (l : ClinVarVCFLine) (ls2 : List ClinVarVCFLine)
    (t : List ClinVarRow) (r : ClinVarRow) (s : String)
    (h1 : parse_clinvar_data ls1 [] = (t, none))
    (h2 : clinvarRowOfLine l = .ok r)
    (h3 : r.id = some s)
    (h4 : ∃ q ∈ t, q.id = some s) :
    parse_clinvar_data (ls1 ++ l :: ls2) [] = (t, some PyError.integrityError)
    ∧ ∀ q ∈ t, ∀ (cc : Nat) (pp : Int) (aa : String) (sq : String),
        q.id = some sq → q ∈ clinvarLookup t cc pp aa sq := by
  constructor
  · rw [parse_clinvar_append ls1 [] t h1 (l :: ls2)]
    have hany : t.any (fun q => q.id == some s) = true := by
      obtain ⟨q, hq, hid⟩ := h4
      exact List.any_eq_true.2 ⟨q, hq, by simp [hid]⟩
    have hins : insertClinvar t r = .error .integrityError := by
      simp only [insertClinvar, h3, hany, if_true]
    exact parse_cons_insertError h2 hins
  · intro q hq cc pp aa sq hid
    exact List.mem_filter.2 ⟨hq, by simp [rowMatches, hid]⟩

/-- Witness for C5: building from the two-line dump `lineA, lineB` (both
carrying identifier rs1) aborts at the second insert with the table still
holding the first row, which remains queryable by its identifier. -/
theorem duplicate_id_aborts_no_rollback_witness :
    parse_clinvar_data ([lineA] ++ lineB :: []) [] =
      ([rowA], some PyError.integrityError)
    ∧ ∀ q ∈ [rowA], ∀ (cc : Nat) (pp : Int) (aa : String) (sq : String),
        q.id = some sq → q ∈ clinvarLookup [rowA] cc pp aa sq :=
  duplicate_id_aborts_no_rollback [lineA] lineB [] [rowA] rowB "rs1"
    (by decide) (by decide) rfl (by decide)

/-- C8: a reference record whose identifier field is the placeholder "."
is stored with a null identifier, never with the literal token; and a dump
consisting solely of placeholder-identifier records (with known
chromosomes) builds without any uniqueness violation, storing every
record. -/
theorem placeholder_identifier_stored_null :
    (∀ (l : ClinVarVCFLine) (r : ClinVarRow), clinvarRowOfLine l = .ok r →
       r.id ≠ some "." ∧ (l.dbsnp_id = "." → r.id = none))
    ∧ (∀ (ls : List ClinVarVCFLine) (db : List ClinVarRow),
       (∀ l ∈ ls, (chromIndex l.chrom).isSome = true ∧ l.dbsnp_id = ".") →
       (parse_clinvar_data ls db).2 = none
       ∧ (parse_clinvar_data ls db).1.length = db.length + ls.length) := by
  constructor
  · intro l r h
    rw [clinvarRowOfLine] at h
    cases hc : chromIndex l.chrom with
    | none => rw [hc] at h; simp at h
    | some code =>
        rw [hc] at h
        injection h with h
        subst h
        constructor
        · by_cases hd : l.dbsnp_id = "."
          · simp [hd]
          · simp [hd]
        · intro hd; simp [hd]
  · intro ls
    induction ls with
    | nil =>
        intro db _
        exact ⟨rfl, by simp [parse_clinvar_data]⟩
    | cons l ls ih =>
        intro db h
        obtain ⟨hsome, hdot⟩ := h l (List.mem_cons_self l ls)
        obtain ⟨code, hc⟩ := Option.isSome_iff_exists.1 hsome
        obtain ⟨r, hrow, hrid⟩ :
            ∃ r, clinvarRowOfLine l = .ok r ∧ r.id = none := by
          rw [clinvarRowOfLine, hc]
          exact ⟨_, rfl, by simp [hdot]⟩
        have hins : insertClinvar db r = .ok (db ++ [r]) := by
          rw [insertClinvar, hrid]
        rw [parse_cons_ok hrow hins]
        have hrec := ih (db ++ [r]) fun l' hl' => h l' (List.mem_cons_of_mem l hl')
        refine ⟨hrec.1, ?_⟩
        rw [hrec.2, List.length_append]
        simp
        omega

/-- A dump line with placeholder identifier on chromosome 1. -/
def lineDot1 : ClinVarVCFLine :=
  { chrom := "1", start := 100, dbsnp_id := ".", ref_allele := "A",
    alt_alleles := ["G"], as_dict := "p1" }

/-- A second dump line with placeholder identifier on chromosome 2. -/
def lineDot2 : ClinVarVCFLine :=
  { chrom := "2", start := 200, dbsnp_id := ".", ref_allele := "C",
    alt_alleles := ["T"], as_dict := "p2" }

/-- The row stored for `lineDot1`. -/
def rowDot1 : ClinVarRow :=
  { chrom := 1, pos := 100, id := none, ref := "A", alt := "['G']",
    full_data := "p1" }

/-- Witness for C8: the row built from `lineDot1` has a null identifier,
and the two-record all-placeholder dump builds completely with no error. -/
theorem placeholder_identifier_stored_null_witness :
    (rowDot1.id ≠ some "." ∧ (lineDot1.dbsnp_id = "." → rowDot1.id = none))
    ∧ ((parse_clinvar_data [lineDot1, lineDot2] []).2 = none
       ∧ (parse_clinvar_data [lineDot1, lineDot2] []).1.length =
           ([] : List ClinVarRow).length + [lineDot1, lineDot2].length) :=
  ⟨placeholder_identifier_stored_null.1 lineDot1 rowDot1 (by decide),
   placeholder_identifier_stored_null.2 [lineDot1, lineDot2] [] (by decide)⟩

/-- C10: a variant whose chromosome is not a key of the chromosome table
makes the matcher raise `KeyError`, and one whose position string does not
parse as an integer makes it raise `ValueError`, in both cases before the
index is queried (the result does not depend on the stored rows or the
oracles) and aborting all remaining variants and users; during the index
build, a dump line with an unknown chromosome aborts the build the same
way. -/
theorem unknown_chrom_or_bad_pos_aborts
    (os : Oracles) (db : List ClinVarRow) (v : UserVariant)
    (vs : List UserVariant) (us : List (List UserVariant)) :
    (chromIndex v.chrom = none →
       map_23andme_clinvar os db ((v :: vs) :: us) = .error (.keyError v.chrom))
    ∧ (∀ code : Nat, chromIndex v.chrom = some code →
       pyInt v.pos = .error (.valueError v.pos) →
       map_23andme_clinvar os db ((v :: vs) :: us) =
         .error (.valueError v.pos))
    ∧ (∀ (l : ClinVarVCFLine) (ls : List ClinVarVCFLine)
         (db0 : List ClinVarRow),
       chromIndex l.chrom = none →
       parse_clinvar_data (l :: ls) db0 = (db0, some (.keyError l.chrom))) := by
  refine ⟨?_, ?_, ?_⟩
  · intro h
    exact mapUsers_cons_error (mapUserVariants_cons_error (processVar_keyError h))
  · intro code hc hp
    exact mapUsers_cons_error (mapUserVariants_cons_error (processVar_posError hc hp))
  · intro l ls db0 h
    exact parse_cons_lineError (by rw [clinvarRowOfLine, h])

/-- A variant with a chromosome name absent from the table. -/
def vBadChrom : UserVariant :=
  { chrom := "banana", pos := "1000", id := ".", ref_allele := "A",
    alt_allele := "G" }

/-- A variant whose position column is not an integer. -/
def vBadPos : UserVariant :=
  { chrom := "1", pos := "10q", id := ".", ref_allele := "A",
    alt_allele := "G" }

/-- A dump line with a chromosome name absent from the table. -/
def lineBadChrom : ClinVarVCFLine :=
  { chrom := "not-a-chromosome", start := 5, dbsnp_id := ".",
    ref_allele := "A", alt_alleles := ["G"], as_dict := "d" }

/-- Witness for C10 at concrete inputs: the unknown chromosome and the
unparseable position each abort the whole matcher run, and the unknown
dump chromosome aborts the build. -/
theorem unknown_chrom_or_bad_pos_aborts_witness :
    map_23andme_clinvar osOk [] ([vBadChrom] :: []) =
      .error (.keyError "banana")
    ∧ map_23andme_clinvar osOk [] ([vBadPos] :: []) =
        .error (.valueError "10q")
    ∧ parse_clinvar_data [lineBadChrom] [] =
        ([], some (.keyError "not-a-chromosome")) :=
  ⟨(unknown_chrom_or_bad_pos_aborts osOk [] vBadChrom [] []).1 rfl,
   (unknown_chrom_or_bad_pos_aborts osOk [] vBadPos [] []).2.1 1 rfl rfl,
   (unknown_chrom_or_bad_pos_aborts osOk [] vBadPos [] []).2.2
     lineBadChrom [] [] rfl⟩

/-- The slot state written by a result iteration whose gennotes request
and HGVS conversion both succeeded (with `o` holding the myvariant result,
`none` when that lookup failed and was caught). -/
def fullSlots (os : Oracles) (v : UserVariant) (gd hv : String)
    (o : Option String) (r : ClinVarRow) : Slots :=
  { clinvar_data := some r.full_data,
    gennotes_id := some (_gennotes_id v.chrom v.pos v.ref_allele v.alt_allele),
    gennotes_data := some gd, hgvs_id := some (os.unquote hv), mv_data := o }

/-- The slot state written by a result iteration for a placeholder-allele
variant: only the matched annotation payload is populated. -/
def dotSlots (r : ClinVarRow) : Slots :=
  { clinvar_data := some r.full_data, gennotes_id := none,
    gennotes_data := none, hgvs_id := none, mv_data := none }

/-- C2 (amended): only the myvariant lookup is fault-tolerant: when it
fails for a variant whose gennotes request and HGVS conversion succeed,
the failure is caught, every output entry for that variant carries a null
`mv_data` slot, and the remaining variants are still processed. (The
companion counterexample shows a gennotes failure is not caught.) -/
theorem mv_lookup_failure_caught
    (os : Oracles) (db : List ClinVarRow) (v : UserVariant)
    (vs : List UserVariant) (code : Nat) (p : Int) (gd hv : String)
    (e : PyError)
    (hne : v.alt_allele ≠ ".")
    (hc : chromIndex v.chrom = some code)
    (hp : pyInt v.pos = .ok p)
    (hgen : os.gennotes (_gennotes_id v.chrom v.pos v.ref_allele v.alt_allele)
            = .ok gd)
    (hh : os.format_hgvs v.chrom v.pos v.ref_allele v.alt_allele = .ok hv)
    (hmv : os.getvariant (os.unquote hv) = .error e) :
    ∃ out, processVar os db v = .ok out
      ∧ (∀ x ∈ out, x.slots.mv_data = none)
      ∧ ∀ rest, mapUserVariants os db vs = .ok rest →
          mapUserVariants os db (v :: vs) = .ok (out ++ rest) := by
  have hstep : ∀ s r, processResult os v s r = .ok (fullSlots os v gd hv none r) :=
    fun s r => processResult_mvCaught hne hgen hh hmv
  have hloop := enrichLoop_const os v (fullSlots os v gd hv none) hstep
    (clinvarLookup db code p v.alt_allele v.id) emptySlots
  have hpv := processVar_loopOk hc hp hloop
  refine ⟨_, hpv, ?_, fun rest hrest => mapUserVariants_cons_ok hpv hrest⟩
  intro x hx
  obtain ⟨_, hxe⟩ := List.mem_replicate.1 hx
  subst hxe
  exact getLastD_of_all (fun sl => sl.mv_data = none)
    ((clinvarLookup db code p v.alt_allele v.id).map (fullSlots os v gd hv none))
    emptySlots rfl (by
      intro a ha
      obtain ⟨q, _, hq⟩ := List.mem_map.1 ha
      subst hq
      rfl)

/-- Witness for C2 at concrete inputs: with the myvariant oracle failing,
the variant is still processed, its `mv_data` slot is null, and a
successor list of variants would be processed unchanged. -/
theorem mv_lookup_failure_caught_witness :
    ∃ out, processVar osMvFail [rowA] v1 = .ok out
      ∧ (∀ x ∈ out, x.slots.mv_data = none)
      ∧ ∀ rest, mapUserVariants osMvFail [rowA] [] = .ok rest →
          mapUserVariants osMvFail [rowA] (v1 :: []) = .ok (out ++ rest) :=
  mv_lookup_failure_caught osMvFail [rowA] v1 [] 1 1000 "gnote" "h"
    (.requestError "mv down") (by decide) rfl rfl rfl rfl rfl

/-- Counterexample to C2 as stated: a failure of the coordinate-key
gennotes request is not caught; it propagates past the matcher, aborting
the matching variant, its user, and the following user. -/
theorem gennotes_failure_propagates_cex :
    map_23andme_clinvar osGenFail [rowA] [[v1], [v1]] =
      .error (.requestError "gennotes down") := by
  decide

/-- C6 (amended): when the HGVS conversion fails for a variant with at
least one index match (and a successful gennotes request), the raised
error propagates uncaught out of the per-variant processing, the user
loop, and the whole matcher: the run aborts rather than treating the
nomenclature key as unavailable for that variant only. -/
theorem hgvs_failure_propagates
    (os : Oracles) (db : List ClinVarRow) (v : UserVariant)
    (vs : List UserVariant) (us : List (List UserVariant))
    (code : Nat) (p : Int) (gd : String) (e : PyError)
    (hne : v.alt_allele ≠ ".")
    (hc : chromIndex v.chrom = some code)
    (hp : pyInt v.pos = .ok p)
    (hres : clinvarLookup db code p v.alt_allele v.id ≠ [])
    (hgen : os.gennotes (_gennotes_id v.chrom v.pos v.ref_allele v.alt_allele)
            = .ok gd)
    (hh : os.format_hgvs v.chrom v.pos v.ref_allele v.alt_allele = .error e) :
    processVar os db v = .error e
    ∧ mapUserVariants os db (v :: vs) = .error e
    ∧ map_23andme_clinvar os db ((v :: vs) :: us) = .error e := by
  obtain ⟨r, rs, hsplit⟩ :
      ∃ r rs, clinvarLookup db code p v.alt_allele v.id = r :: rs := by
    cases hcl : clinvarLookup db code p v.alt_allele v.id with
    | nil => exact absurd hcl hres
    | cons r rs => exact ⟨r, rs, rfl⟩
  have hloop : enrichLoop os v (clinvarLookup db code p v.alt_allele v.id)
      emptySlots = .error e := by
    rw [hsplit, enrichLoop, processResult_hgvsFail hne hgen hh]
  have hpv := processVar_loopError hc hp hloop
  exact ⟨hpv, mapUserVariants_cons_error hpv,
    mapUsers_cons_error (mapUserVariants_cons_error hpv)⟩

/-- Witness for C6 at concrete inputs. -/
theorem hgvs_failure_propagates_witness :
    processVar osHgvsFail [rowA] v1 = .error (.hgvsError "unsupported allele")
    ∧ mapUserVariants osHgvsFail [rowA] (v1 :: []) =
        .error (.hgvsError "unsupported allele")
    ∧ map_23andme_clinvar osHgvsFail [rowA] ((v1 :: []) :: []) =
        .error (.hgvsError "unsupported allele") :=
  hgvs_failure_propagates osHgvsFail [rowA] v1 [] [] 1 1000 "gnote"
    (.hgvsError "unsupported allele") (by decide) rfl rfl (by decide) rfl rfl

/-- Counterexample to C6 as stated: with the conversion raising for the
one variant, the whole matcher run aborts with that error instead of
continuing. -/
theorem hgvs_failure_aborts_cex :
    map_23andme_clinvar osHgvsFail [rowA] [[v1]] =
      .error (.hgvsError "unsupported allele") := by
  decide

/-- C7 (amended): a placeholder-allele variant is still queried against
the index and produces one output entry per match; every such entry has
the four lookup-derived slots null, but its matched-reference-annotation
slot `clinvar_data` is populated (set before the placeholder guard), not
null. -/
theorem placeholder_allele_skips_external
    (os : Oracles) (db : List ClinVarRow) (v : UserVariant)
    (code : Nat) (p : Int)
    (halt : v.alt_allele = ".")
    (hc : chromIndex v.chrom = some code)
    (hp : pyInt v.pos = .ok p) :
    ∃ out, processVar os db v = .ok out
      ∧ out.length = (clinvarLookup db code p v.alt_allele v.id).length
      ∧ ∀ x ∈ out, x.slots.gennotes_id = none ∧ x.slots.gennotes_data = none
          ∧ x.slots.hgvs_id = none ∧ x.slots.mv_data = none
          ∧ x.slots.clinvar_data.isSome = true := by
  have hstep : ∀ s r, processResult os v s r = .ok (dotSlots r) :=
    fun s r => processResult_dot halt
  have hloop := enrichLoop_const os v dotSlots hstep
    (clinvarLookup db code p v.alt_allele v.id) emptySlots
  have hpv := processVar_loopOk hc hp hloop
  refine ⟨_, hpv, by simp, ?_⟩
  intro x hx
  obtain ⟨hn, hxe⟩ := List.mem_replicate.1 hx
  subst hxe
  obtain ⟨r, rs, hsplit⟩ :
      ∃ r rs, clinvarLookup db code p v.alt_allele v.id = r :: rs := by
    cases hcl : clinvarLookup db code p v.alt_allele v.id with
    | nil => rw [hcl] at hn; simp at hn
    | cons r rs => exact ⟨r, rs, rfl⟩
  show (((clinvarLookup db code p v.alt_allele v.id).map dotSlots).getLastD
          emptySlots).gennotes_id = none ∧ _
  rw [hsplit, List.map_cons, List.getLastD_cons]
  refine getLastD_of_all
    (fun sl => sl.gennotes_id = none ∧ sl.gennotes_data = none
      ∧ sl.hgvs_id = none ∧ sl.mv_data = none ∧ sl.clinvar_data.isSome = true)
    _ (dotSlots r) ⟨rfl, rfl, rfl, rfl, rfl⟩ ?_
  intro a ha
  obtain ⟨q, _, hq⟩ := List.mem_map.1 ha
  subst hq
  exact ⟨rfl, rfl, rfl, rfl, rfl⟩

/-- The single output entry produced for `vDot` against the store holding
`rowA`: matched by identifier, annotation payload attached, all four
lookup-derived slots null. -/
def evDot : EnrichedVariant :=
  { var := vDot,
    slots := { clinvar_data := some "d1", gennotes_id := none,
               gennotes_data := none, hgvs_id := none, mv_data := none } }

/-- Witness for C7 at concrete inputs: the placeholder-allele variant
`vDot` matches `rowA` by identifier and yields one entry with the four
lookup-derived slots null and `clinvar_data` populated. -/
theorem placeholder_allele_skips_external_witness :
    ∃ out, processVar osOk [rowA] vDot = .ok out
      ∧ out.length = (clinvarLookup [rowA] 1 1000 "." "rs1").length
      ∧ ∀ x ∈ out, x.slots.gennotes_id = none ∧ x.slots.gennotes_data = none
          ∧ x.slots.hgvs_id = none ∧ x.slots.mv_data = none
          ∧ x.slots.clinvar_data.isSome = true :=
  placeholder_allele_skips_external osOk [rowA] vDot 1 1000 rfl rfl rfl

/-- Counterexample to C7 as stated: the output record for the
placeholder-allele variant `vDot` has a populated matched-reference-
annotation slot, so not all four enrichment slots are null. -/
theorem placeholder_clinvar_slot_populated_cex :
    processVar osOk [rowA] vDot = .ok [evDot]
    ∧ evDot.slots.clinvar_data ≠ none := by
  exact ⟨by decide, by decide⟩

/-- A stored row matching the C4 scenario query only by identifier, with
annotation payload "payloadA". -/
def rowDupA : ClinVarRow :=
  { chrom := 3, pos := 7, id := some "rs9", ref := "C", alt := "['T']",
    full_data := "payloadA" }

/-- A stored row matching the C4 scenario query by coordinate and allele
pattern, with annotation payload "payloadB". -/
def rowDupB : ClinVarRow :=
  { chrom := 1, pos := 1000, id := none, ref := "A", alt := "['G']",
    full_data := "payloadB" }

/-- An individual variant matching both rows above: `rowDupA` through its
identifier and `rowDupB` through its coordinate (its allele column is the
SQL wildcard, which the unescaped `LIKE` interpolation accepts). -/
def vPct : UserVariant :=
  { chrom := "1", pos := "1000", id := "rs9", ref_allele := "A",
    alt_allele := "%" }

/-- The one dict state serialized for both matches of `vPct`: its
`clinvar_data` holds the payload of the second match only. -/
def evPct : EnrichedVariant :=
  { var := vPct,
    slots := { clinvar_data := some "payloadB",
               gennotes_id := some "b37-1-1000-A-%",
               gennotes_data := some "gnote", hgvs_id := some "h",
               mv_data := some "mv" } }

/-- C4: on a variant matching two reference records with distinct
annotation payloads, the matcher emits two output entries (duplicates
preserved), but because both entries alias the same mutable dict, both
carry the payload of the last match: the entry for the first matching
record does not carry that record's own payload. -/
theorem duplicate_match_payload_overwritten :
    clinvarLookup [rowDupA, rowDupB] 1 1000 "%" "rs9" = [rowDupA, rowDupB]
    ∧ processVar osOk [rowDupA, rowDupB] vPct = .ok [evPct, evPct]
    ∧ evPct.slots.clinvar_data = some rowDupB.full_data
    ∧ rowDupA.full_data ≠ rowDupB.full_data := by
  exact ⟨by decide, by decide, rfl, by decide⟩
